import Mathlib

/-!
Verification of the SPM-INTEGRATED-SYSTEM orchestrator gateway.

The definitions below are shallow embeddings of the Python source under
`services/orchestrator/`: dynamic JSON-ish values stand for Python
dicts/lists, `Except` stands for raised exceptions, and network effects
are passed in explicitly as the outcomes the code would observe.
-/

namespace SPM

/-- Dynamic JSON-like value as handled by the Python gateway code
(strings, ints, bools, `None`, lists and dicts). -/
inductive JVal where
  | s (v : String)
  | i (v : Int)
  | b (v : Bool)
  | null
  | list (xs : List JVal)
  | dict (fields : List (String × JVal))
  deriving Repr

/-- A Python dict with string keys, as used for token claims and JSON
payloads throughout the orchestrator. -/
abbrev PyDict := List (String × JVal)

/-- First binding of a key in a dict (Python dicts have unique keys, so
this is the binding). -/
def jLookup : PyDict → String → Option JVal
  | [], _ => none
  | (k, v) :: rest, key => if k = key then some v else jLookup rest key

/-- Python `d.get(key)`: the value, or `None` when absent. -/
def pyGet (d : PyDict) (key : String) : Option JVal :=
  jLookup d key

/-- Python `x == w` where `w` is a `str`: true exactly when `x` is the
same string (Python equality across types is false here). `none` stands
for a `.get` miss, i.e. Python `None`. -/
def pyEqStr (v : Option JVal) (w : String) : Bool :=
  match v with
  | some (.s x) => x = w
  | _ => false

/-- Python `d[key] = v` / `d.update({key: v})` on one key: replace the
existing binding or append a new one. -/
def dictSet : PyDict → String → JVal → PyDict
  | [], k, v => [(k, v)]
  | (k', v') :: rest, k, v =>
      if k' = k then (k, v) :: rest else (k', v') :: dictSet rest k v

/-- FastAPI `HTTPException(status_code, detail)`. -/
structure HTTPException where
  status_code : Nat
  detail : String
  deriving DecidableEq, Repr

/-- `check_same_org` from `middleware/permissions.py`: raises 403
"Access denied" unless the user's `organization_id` claim equals the
resource's organization id or the user's role is `admin`. -/
def check_same_org (current_user : PyDict) (resource_org_id : String) :
    Except HTTPException Unit :=
  if !(pyEqStr (pyGet current_user "organization_id") resource_org_id) then
    if !(pyEqStr (pyGet current_user "role") "admin") then
      .error ⟨403, "Access denied"⟩
    else
      .ok ()
  else
    .ok ()

theorem pyEqStr_true_iff (v : Option JVal) (w : String) :
    pyEqStr v w = true ↔ v = some (JVal.s w) := by
  cases v with
  | none => simp [pyEqStr]
  | some j =>
    cases j <;> simp [pyEqStr]

theorem pyEqStr_false_iff (v : Option JVal) (w : String) :
    pyEqStr v w = false ↔ v ≠ some (JVal.s w) := by
  constructor
  · intro h hc
    rw [hc] at h
    simp [pyEqStr] at h
  · intro h
    cases hb : pyEqStr v w
    · rfl
    · exact absurd ((pyEqStr_true_iff v w).mp hb) h

/-- C2: `check_same_org(t, r)` succeeds iff `t.organization_id = r` or
`t.role = "admin"`; in every other case it fails with HTTP 403
"Access denied". -/
theorem check_same_org_correct (u : PyDict) (r : String) :
    (check_same_org u r = .ok () ↔
      pyGet u "organization_id" = some (JVal.s r) ∨
      pyGet u "role" = some (JVal.s "admin")) ∧
    (¬(pyGet u "organization_id" = some (JVal.s r) ∨
       pyGet u "role" = some (JVal.s "admin")) →
      check_same_org u r = .error ⟨403, "Access denied"⟩) := by
  cases h1 : pyEqStr (pyGet u "organization_id") r with
  | true =>
    have ho := (pyEqStr_true_iff _ _).mp h1
    refine ⟨⟨fun _ => Or.inl ho, fun _ => by simp [check_same_org, h1]⟩,
      fun hnot => absurd (Or.inl ho) hnot⟩
  | false =>
    have ho := (pyEqStr_false_iff _ _).mp h1
    cases h2 : pyEqStr (pyGet u "role") "admin" with
    | true =>
      have hr := (pyEqStr_true_iff _ _).mp h2
      refine ⟨⟨fun _ => Or.inr hr, fun _ => by simp [check_same_org, h1, h2]⟩,
        fun hnot => absurd (Or.inr hr) hnot⟩
    | false =>
      have hr := (pyEqStr_false_iff _ _).mp h2
      constructor
      · constructor
        · intro hok
          simp [check_same_org, h1, h2] at hok
        · rintro (h | h)
          · exact absurd h ho
          · exact absurd h hr
      · intro _
        simp [check_same_org, h1, h2]

/-- C2 witness: a member token from org "o1" accessing an org "o2"
resource is denied with 403. -/
theorem check_same_org_correct_witness :
    check_same_org [("organization_id", JVal.s "o1"), ("role", JVal.s "member")] "o2" =
      .error ⟨403, "Access denied"⟩ :=
  (check_same_org_correct
      [("organization_id", JVal.s "o1"), ("role", JVal.s "member")] "o2").2
    (by simp [pyGet, jLookup])

theorem jLookup_dictSet_self (d : PyDict) (k : String) (v : JVal) :
    jLookup (dictSet d k v) k = some v := by
  induction d with
  | nil => simp [dictSet, jLookup]
  | cons hd tl ih =>
    obtain ⟨k', v'⟩ := hd
    by_cases h : k' = k
    · simp [dictSet, jLookup, h]
    · simp [dictSet, jLookup, h, ih]

theorem jLookup_dictSet_ne (d : PyDict) (k k' : String) (v : JVal)
    (h : k ≠ k') : jLookup (dictSet d k' v) k = jLookup d k := by
  have h' : ¬(k' = k) := fun hc => h hc.symm
  induction d with
  | nil => simp [dictSet, jLookup, h']
  | cons hd tl ih =>
    obtain ⟨k0, v0⟩ := hd
    simp only [dictSet]
    split_ifs with h0
    · subst h0
      simp [jLookup, h']
    · simp only [jLookup]
      split_ifs with h1
      · rfl
      · exact ih

/-- Token-related settings from `config.py` (`jwt_secret`,
`jwt_algorithm`, `access_token_expire_days`). -/
structure JwtSettings where
  jwt_secret : String
  jwt_algorithm : String
  access_token_expire_days : Nat

/-- A signed JWT as produced by `jose.jwt.encode`: the claims payload
together with the secret and algorithm it was signed with. Times are
seconds since the epoch. -/
structure Jwt where
  payload : PyDict
  secret : String
  alg : String

/-- The `expire` computed by `create_access_token`: `utcnow() +
expires_delta` when given, else `utcnow() + timedelta(days =
settings.access_token_expire_days)`. -/
def access_token_expire (st : JwtSettings) (now : Nat)
    (expires_delta : Option Nat) : Nat :=
  match expires_delta with
  | some d => now + d
  | none => now + 86400 * st.access_token_expire_days

/-- `create_access_token` from `auth/jwt_handler.py`: copies the data,
overwrites `exp` and `iat`, and signs with the configured secret and
algorithm. -/
def create_access_token (st : JwtSettings) (data : PyDict) (now : Nat)
    (expires_delta : Option Nat) : Jwt :=
  { payload :=
      dictSet (dictSet data "exp"
        (.i (access_token_expire st now expires_delta))) "iat" (.i now)
    secret := st.jwt_secret
    alg := st.jwt_algorithm }

/-- `jose.jwt.decode`: fails when the signature (secret/algorithm) does
not match, fails with "Signature has expired." when the `exp` claim is
in the past (default leeway 0), otherwise returns the claims. -/
def joseDecode (tok : Jwt) (secret alg : String) (now : Nat) :
    Except String PyDict :=
  if tok.secret = secret ∧ tok.alg = alg then
    match jLookup tok.payload "exp" with
    | some (.i e) =>
        if e < (now : Int) then .error "Signature has expired."
        else .ok tok.payload
    | some _ => .error "Expiration Time claim (exp) must be an integer."
    | none => .ok tok.payload
  else
    .error "Signature verification failed."

/-- `decode_token` from `auth/jwt_handler.py`: `jose.jwt.decode` with the
configured secret and algorithm; a `JWTError` becomes
`HTTPException(401, "Invalid token: ...")`. -/
def decode_token (st : JwtSettings) (tok : Jwt) (now : Nat) :
    Except HTTPException PyDict :=
  match joseDecode tok st.jwt_secret st.jwt_algorithm now with
  | .ok p => .ok p
  | .error e => .error ⟨401, "Invalid token: " ++ e⟩

/-- `create_user_token` from `auth/jwt_handler.py`: builds the claims
dict `{sub, email, name, role}` (and nothing else) and issues it via
`create_access_token` with the default ttl. -/
def create_user_token (st : JwtSettings) (user_id email name role : String)
    (now : Nat) : Jwt :=
  create_access_token st
    [("sub", .s user_id), ("email", .s email), ("name", .s name),
     ("role", .s role)] now none

/-- Python runtime errors relevant here. -/
inductive PyError where
  | typeError
  deriving DecidableEq, Repr

/-- A positional call of `create_user_token`, following Python call
semantics for its signature `(user_id, email, name, role="member")`:
three or four positional arguments are accepted, any other count raises
`TypeError`. -/
def call_create_user_token (st : JwtSettings) (now : Nat)
    (args : List String) : Except PyError Jwt :=
  match args with
  | [u, e, n] => .ok (create_user_token st u e n "member" now)
  | [u, e, n, r] => .ok (create_user_token st u e n r now)
  | _ => .error .typeError

/-- The token-creation step of `register` in `routers/auth.py` (line 78):
`create_user_token(str(user_id), user_data.email, user_data.name,
user_data.role, str(org_id))` — five positional arguments. -/
def register_token_call (st : JwtSettings) (now : Nat)
    (user_id email name role org_id : String) : Except PyError Jwt :=
  call_create_user_token st now [user_id, email, name, role, org_id]

/-- C1 (code bug): `register` can never issue the claimed token. Its
token-creation step passes five positional arguments to
`create_user_token`, which accepts at most four, so Python raises
`TypeError`; and the claims `create_user_token` would build contain no
`organization_id` at all, contradicting the claimed shape
`{sub, email, name, role, organization_id?, iat, exp}` with
`organization_id` equal to the fresh org. -/
theorem register_token_bug (st : JwtSettings) (now : Nat)
    (user_id email name role org_id : String) :
    register_token_call st now user_id email name role org_id =
      .error .typeError ∧
    jLookup (create_user_token st user_id email name role now).payload
      "organization_id" = none := by
  constructor
  · rfl
  · rfl

/-- C4: decoding a token issued by `create_access_token` with the same
secret and algorithm recovers every original claim except the
overwritten `exp`/`iat` (hence subject, role and organization) while
`now' ≤ exp`, and fails with the 401 "Signature has expired." error once
`exp < now'`. -/
theorem decode_roundtrip (st : JwtSettings) (data : PyDict)
    (now : Nat) (expires_delta : Option Nat) (now' : Nat) :
    ((now' : Int) ≤ access_token_expire st now expires_delta →
      ∃ p, decode_token st (create_access_token st data now expires_delta) now' =
          .ok p ∧
        ∀ k, k ≠ "exp" → k ≠ "iat" → jLookup p k = jLookup data k) ∧
    ((access_token_expire st now expires_delta : Int) < (now' : Int) →
      decode_token st (create_access_token st data now expires_delta) now' =
        .error ⟨401, "Invalid token: Signature has expired."⟩) := by
  have hexp : jLookup (create_access_token st data now expires_delta).payload
      "exp" = some (.i (access_token_expire st now expires_delta)) := by
    unfold create_access_token
    rw [jLookup_dictSet_ne _ _ _ _ (by decide), jLookup_dictSet_self]
  constructor
  · intro hle
    refine ⟨(create_access_token st data now expires_delta).payload, ?_, ?_⟩
    · unfold decode_token joseDecode
      rw [hexp]
      simp only [create_access_token, and_self, if_true]
      rw [if_neg (by omega)]
    · intro k hk1 hk2
      unfold create_access_token
      rw [jLookup_dictSet_ne _ _ _ _ hk2, jLookup_dictSet_ne _ _ _ _ hk1]
  · intro hlt
    unfold decode_token joseDecode
    rw [hexp]
    simp only [create_access_token, and_self, if_true]
    rw [if_pos (by omega)]
    rfl

/-- C4 witness: a token for subject "u1", role "member", org "o1" issued
at time 0 with ttl 100 decodes to the original claims at time 50 and
fails as expired at time 200. -/
theorem decode_roundtrip_witness :
    (∃ p, decode_token ⟨"secret", "HS256", 7⟩
        (create_access_token ⟨"secret", "HS256", 7⟩
          [("sub", JVal.s "u1"), ("role", JVal.s "member"),
           ("organization_id", JVal.s "o1")] 0 (some 100)) 50 = .ok p ∧
      ∀ k, k ≠ "exp" → k ≠ "iat" →
        jLookup p k = jLookup
          [("sub", JVal.s "u1"), ("role", JVal.s "member"),
           ("organization_id", JVal.s "o1")] k) ∧
    decode_token ⟨"secret", "HS256", 7⟩
      (create_access_token ⟨"secret", "HS256", 7⟩
        [("sub", JVal.s "u1"), ("role", JVal.s "member"),
         ("organization_id", JVal.s "o1")] 0 (some 100)) 200 =
      .error ⟨401, "Invalid token: Signature has expired."⟩ :=
  ⟨(decode_roundtrip ⟨"secret", "HS256", 7⟩
      [("sub", JVal.s "u1"), ("role", JVal.s "member"),
       ("organization_id", JVal.s "o1")] 0 (some 100) 50).1 (by norm_num
        [access_token_expire]),
   (decode_roundtrip ⟨"secret", "HS256", 7⟩
      [("sub", JVal.s "u1"), ("role", JVal.s "member"),
       ("organization_id", JVal.s "o1")] 0 (some 100) 200).2 (by norm_num
        [access_token_expire])⟩

/-- Outcome of one httpx request as observed by the calling code: either
a response (status code plus the result of parsing `.json()`), or a
raised exception (timeout, connection refused, ...) carrying its
`str(e)` message. -/
inductive HttpAttempt where
  | resp (status : Nat) (body : Except String JVal)
  | exc (msg : String)

/-- `str(e)` of the `httpx.HTTPStatusError` raised by
`raise_for_status()` on a non-2xx response (the exact httpx wording is
abstracted, keyed by the status code). -/
def httpStatusMessage (status : Nat) : String :=
  "HTTP status error " ++ toString status

/-- `BaseServiceClient.get` from `services/base_client.py`: on any
exception (transport error, `raise_for_status` on a non-2xx status —
httpx raises for every non-2xx — or a JSON parse failure) returns
`{"error": str(e), "service": ..., "endpoint": ...}`; otherwise the
parsed body. -/
def base_get (service_name endpoint : String) (a : HttpAttempt) : JVal :=
  match a with
  | .exc m =>
      .dict [("error", .s m), ("service", .s service_name),
             ("endpoint", .s endpoint)]
  | .resp status body =>
      if 200 ≤ status ∧ status < 300 then
        match body with
        | .ok j => j
        | .error m =>
            .dict [("error", .s m), ("service", .s service_name),
                   ("endpoint", .s endpoint)]
      else
        .dict [("error", .s (httpStatusMessage status)),
               ("service", .s service_name), ("endpoint", .s endpoint)]

/-- `BaseServiceClient.post`: like `get`, but its failure dict also
carries `attempted_url` (= base_url + endpoint). The request payload
does not influence the shape of the result, only the observed outcome
`a` does. -/
def base_post (service_name base_url endpoint : String) (a : HttpAttempt) :
    JVal :=
  match a with
  | .exc m =>
      .dict [("error", .s m), ("service", .s service_name),
             ("endpoint", .s endpoint),
             ("attempted_url", .s (base_url ++ endpoint))]
  | .resp status body =>
      if 200 ≤ status ∧ status < 300 then
        match body with
        | .ok j => j
        | .error m =>
            .dict [("error", .s m), ("service", .s service_name),
                   ("endpoint", .s endpoint),
                   ("attempted_url", .s (base_url ++ endpoint))]
      else
        .dict [("error", .s (httpStatusMessage status)),
               ("service", .s service_name), ("endpoint", .s endpoint),
               ("attempted_url", .s (base_url ++ endpoint))]

/-- `BaseServiceClient.put`: same failure shape as `get`. -/
def base_put (service_name endpoint : String) (a : HttpAttempt) : JVal :=
  match a with
  | .exc m =>
      .dict [("error", .s m), ("service", .s service_name),
             ("endpoint", .s endpoint)]
  | .resp status body =>
      if 200 ≤ status ∧ status < 300 then
        match body with
        | .ok j => j
        | .error m =>
            .dict [("error", .s m), ("service", .s service_name),
                   ("endpoint", .s endpoint)]
      else
        .dict [("error", .s (httpStatusMessage status)),
               ("service", .s service_name), ("endpoint", .s endpoint)]

/-- `BaseServiceClient.delete`: same failure shape as `get`. -/
def base_delete (service_name endpoint : String) (a : HttpAttempt) : JVal :=
  match a with
  | .exc m =>
      .dict [("error", .s m), ("service", .s service_name),
             ("endpoint", .s endpoint)]
  | .resp status body =>
      if 200 ≤ status ∧ status < 300 then
        match body with
        | .ok j => j
        | .error m =>
            .dict [("error", .s m), ("service", .s service_name),
                   ("endpoint", .s endpoint)]
      else
        .dict [("error", .s (httpStatusMessage status)),
               ("service", .s service_name), ("endpoint", .s endpoint)]

/-- A typed failure value of the ServiceProxy: a dict carrying an
`error` message together with the originating service and endpoint. -/
def typedFailure (j : JVal) (svc ep : String) : Prop :=
  ∃ fields, j = JVal.dict fields ∧
    (∃ m, jLookup fields "error" = some (JVal.s m)) ∧
    jLookup fields "service" = some (JVal.s svc) ∧
    jLookup fields "endpoint" = some (JVal.s ep)

/-- C6: for every endpoint and backend behaviour, each ServiceProxy
method returns normally (the model functions are total): the parsed
body on a 2xx response with parseable JSON, and otherwise a typed
failure dict naming the service, endpoint and error. -/
theorem service_proxy_never_raises (svc url ep : String) (a : HttpAttempt) :
    (∃ status j, a = .resp status (.ok j) ∧ 200 ≤ status ∧ status < 300 ∧
      base_get svc ep a = j ∧ base_post svc url ep a = j ∧
      base_put svc ep a = j ∧ base_delete svc ep a = j) ∨
    (typedFailure (base_get svc ep a) svc ep ∧
     typedFailure (base_post svc url ep a) svc ep ∧
     typedFailure (base_put svc ep a) svc ep ∧
     typedFailure (base_delete svc ep a) svc ep) := by
  match a with
  | .exc m =>
      exact Or.inr (by
        refine ⟨⟨_, rfl, ⟨m, rfl⟩, rfl, rfl⟩, ⟨_, rfl, ⟨m, rfl⟩, rfl, rfl⟩,
          ⟨_, rfl, ⟨m, rfl⟩, rfl, rfl⟩, ⟨_, rfl, ⟨m, rfl⟩, rfl, rfl⟩⟩)
  | .resp status body =>
      by_cases h : 200 ≤ status ∧ status < 300
      · match body with
        | .ok j =>
            exact Or.inl ⟨status, j, rfl, h.1, h.2, by simp [base_get, h],
              by simp [base_post, h], by simp [base_put, h],
              by simp [base_delete, h]⟩
        | .error m =>
            refine Or.inr ⟨?_, ?_, ?_, ?_⟩ <;>
              simp only [base_get, base_post, base_put, base_delete, if_pos h] <;>
              exact ⟨_, rfl, ⟨m, rfl⟩, rfl, rfl⟩
      · refine Or.inr ⟨?_, ?_, ?_, ?_⟩ <;>
          simp only [base_get, base_post, base_put, base_delete, if_neg h] <;>
          exact ⟨_, rfl, ⟨httpStatusMessage status, rfl⟩, rfl, rfl⟩

/-- Outcome of one backend sync call in `services/user_sync.py`: a
response status code, or a raised exception. -/
inductive SyncOutcome where
  | status (code : Nat)
  | exc (msg : String)
  deriving DecidableEq, Repr

/-- `UserSyncService._sync_to_atlas`: true iff the POST to the Atlas
sync endpoint returned status 200 or 201; any exception is caught and
yields `False`. -/
def sync_to_atlas (o : SyncOutcome) : Bool :=
  match o with
  | .status c => c = 200 || c = 201
  | .exc _ => false

/-- `UserSyncService._sync_to_workpulse`: same decision on its own
outcome. -/
def sync_to_workpulse (o : SyncOutcome) : Bool :=
  match o with
  | .status c => c = 200 || c = 201
  | .exc _ => false

/-- `UserSyncService._sync_to_epr`: same decision on its own outcome. -/
def sync_to_epr (o : SyncOutcome) : Bool :=
  match o with
  | .status c => c = 200 || c = 201
  | .exc _ => false

/-- `UserSyncService._sync_to_labs`: same decision on its own outcome. -/
def sync_to_labs (o : SyncOutcome) : Bool :=
  match o with
  | .status c => c = 200 || c = 201
  | .exc _ => false

/-- `UserSyncService.sync_user_to_all_services`: one boolean entry per
backend, in the order the code fills the dict. -/
def sync_user_to_all_services (oa ow oe ol : SyncOutcome) :
    List (String × Bool) :=
  [("atlas", sync_to_atlas oa), ("workpulse", sync_to_workpulse ow),
   ("epr", sync_to_epr oe), ("labs", sync_to_labs ol)]

/-- The response `accept_invitation` returns after its user-sync
broadcast (`routers/auth.py`): the sync results are only logged, so the
response is built from the invitation alone. -/
def accept_invitation_response (org_id role : String)
    (syncResults : List (String × Bool)) : PyDict :=
  let _log := syncResults
  [("message", .s "Invitation accepted"), ("organization_id", .s org_id),
   ("role", .s role)]

/-- C8: the sync broadcast returns exactly one boolean entry per backend
(atlas, workpulse, epr, labs), each `true` iff that backend's call
returned status 200 or 201 (exceptions are caught to `false`), and the
triggering operation's response does not depend on the sync results. -/
theorem sync_user_map_correct (oa ow oe ol : SyncOutcome) :
    ((sync_user_to_all_services oa ow oe ol).map Prod.fst =
      ["atlas", "workpulse", "epr", "labs"]) ∧
    ((sync_user_to_all_services oa ow oe ol).length = 4) ∧
    (∀ o : SyncOutcome,
      (sync_to_atlas o = true ↔ o = .status 200 ∨ o = .status 201) ∧
      (sync_to_workpulse o = true ↔ o = .status 200 ∨ o = .status 201) ∧
      (sync_to_epr o = true ↔ o = .status 200 ∨ o = .status 201) ∧
      (sync_to_labs o = true ↔ o = .status 200 ∨ o = .status 201)) ∧
    (∀ org role otherResults,
      accept_invitation_response org role
          (sync_user_to_all_services oa ow oe ol) =
        accept_invitation_response org role otherResults) := by
  refine ⟨rfl, rfl, ?_, fun _ _ _ => rfl⟩
  intro o
  have key : ∀ f : SyncOutcome → Bool,
      (∀ x, f x = (match x with
        | SyncOutcome.status c => (c = 200 || c = 201 : Bool)
        | SyncOutcome.exc _ => false)) →
      (f o = true ↔ o = .status 200 ∨ o = .status 201) := by
    intro f hf
    rw [hf o]
    match o with
    | .status c =>
        simp only [Bool.or_eq_true, decide_eq_true_eq]
        constructor
        · rintro (rfl | rfl)
          · exact Or.inl rfl
          · exact Or.inr rfl
        · rintro (h | h) <;> simp_all
    | .exc m => simp
  exact ⟨key sync_to_atlas (fun x => rfl), key sync_to_workpulse (fun x => rfl),
    key sync_to_epr (fun x => rfl), key sync_to_labs (fun x => rfl)⟩

/-- A value delivered by `asyncio.gather(..., return_exceptions=True)`:
either the coroutine's result or the exception it raised. -/
inductive Gathered where
  | val (j : JVal)
  | exc (msg : String)

/-- Python `isinstance(x, list)` refinement: the list when `x` is one. -/
def asList : Gathered → Option (List JVal)
  | .val (.list xs) => some xs
  | _ => none

/-- Python `isinstance(x, dict)` refinement: the dict when `x` is one. -/
def asDict : Gathered → Option PyDict
  | .val (.dict d) => some d
  | _ => none

/-- `xs if isinstance(xs, list) else []` as used throughout the
aggregator. -/
def listOr (g : Gathered) : List JVal :=
  (asList g).getD []

/-- `x.get(key, default) if isinstance(x, dict) else default`. -/
def dictGetD (g : Gathered) (key : String) (dflt : JVal) : JVal :=
  match asDict g with
  | some d => (jLookup d key).getD dflt
  | none => dflt

/-- `elem.get(key)` on a list element; the source iterates over backend
JSON arrays whose elements are objects. -/
def elemGet (t : JVal) (key : String) : Option JVal :=
  match t with
  | .dict d => jLookup d key
  | _ => none

/-- `DashboardAggregator.get_unified_dashboard` from
`aggregators/dashboard.py`, applied to the six gathered sub-query
results (projects, tasks, activity, performance, goals, labs). -/
def get_unified_dashboard (user_id : String)
    (projects tasks activity performance goals labs : Gathered) : JVal :=
  let completed_tasks :=
    ((listOr tasks).filter (fun t => pyEqStr (elemGet t "status") "Done")).length
  let pending_tasks :=
    ((listOr tasks).filter (fun t => !pyEqStr (elemGet t "status") "Done")).length
  .dict
    [("user_id", .s user_id),
     ("projects", .dict
       [("total", .i ((asList projects).getD []).length),
        ("active", .i ((listOr projects).filter
          (fun p => pyEqStr (elemGet p "status") "active")).length),
        ("data", .list ((listOr projects).take 5))]),
     ("tasks", .dict
       [("total", .i ((asList tasks).getD []).length),
        ("completed", .i completed_tasks),
        ("pending", .i pending_tasks),
        ("data", .list ((listOr tasks).take 5))]),
     ("activity", .dict
       [("productive_hours_today", dictGetD activity "productive_hours" (.i 0)),
        ("idle_hours_today", dictGetD activity "idle_hours" (.i 0)),
        ("productivity_score", dictGetD activity "productivity_score" (.i 0)),
        ("is_online", dictGetD activity "is_online" (.b false))]),
     ("performance", .dict
       [("overall_score", dictGetD performance "overall_score" (.i 0)),
        ("task_completion_rate",
          dictGetD performance "task_completion_rate" (.i 0)),
        ("goal_achievement_rate",
          dictGetD performance "goal_achievement_rate" (.i 0)),
        ("trend", dictGetD performance "trend" (.s "stable"))]),
     ("goals", .dict
       [("total", .i ((asList goals).getD []).length),
        ("in_progress", .i ((listOr goals).filter
          (fun g => pyEqStr (elemGet g "status") "in_progress")).length),
        ("achieved", .i ((listOr goals).filter
          (fun g => pyEqStr (elemGet g "status") "achieved")).length),
        ("data", .list ((listOr goals).take 3))]),
     ("labs", .dict
       [("total", .i ((asList labs).getD []).length),
        ("data", .list ((listOr labs).take 5))])]

/-- C5: the unified dashboard always contains exactly one entry per
sub-query (projects, tasks, activity, performance, goals, labs) plus
`user_id`, whatever mix of the six gathered sub-results are failures:
its key list is constant. -/
theorem dashboard_one_entry_per_subquery (u : String)
    (p t a pf g l : Gathered) :
    ∃ sections, get_unified_dashboard u p t a pf g l = .dict sections ∧
      sections.map Prod.fst =
        ["user_id", "projects", "tasks", "activity", "performance",
         "goals", "labs"] :=
  ⟨_, rfl, rfl⟩

/-- A failed sub-query as it actually reaches the aggregator: the typed
failure dict produced at the ServiceProxy boundary, or an exception
captured by `asyncio.gather(..., return_exceptions=True)`. -/
def aggregatorFailure (g : Gathered) : Prop :=
  (∃ m svc ep, g = .val (.dict
    [("error", .s m), ("service", .s svc), ("endpoint", .s ep)])) ∨
  (∃ m, g = .exc m)

/-- C3 counterexample: dashboard aggregation with the EPR (performance)
backend down — its sub-query yields the ServiceProxy failure dict —
while the other backends return data. The call succeeds and the other
sections populate, but the performance section is the all-default dict
`{overall_score: 0, task_completion_rate: 0, goal_achievement_rate: 0,
trend: "stable"}`: it has no `error` entry (no error marker of any
kind), and the whole dashboard is identical to the one produced when
EPR is healthy but returns an empty object. -/
theorem dashboard_no_error_marker_counterexample :
    get_unified_dashboard "u1"
      (.val (.list [.dict [("id", .s "p1"), ("status", .s "active")]]))
      (.val (.list [.dict [("id", .s "t1"), ("status", .s "Done")]]))
      (.val (.dict [("productive_hours", .i 6), ("idle_hours", .i 1),
        ("productivity_score", .i 80), ("is_online", .b true)]))
      (.val (base_get "epr" "/api/v1/analytics/user/u1/performance"
        (.exc "All connection attempts failed")))
      (.val (.list []))
      (.val (.list [.dict [("id", .i 1), ("name", .s "Lab A")]])) =
    .dict
      [("user_id", .s "u1"),
       ("projects", .dict [("total", .i 1), ("active", .i 1),
         ("data", .list [.dict [("id", .s "p1"), ("status", .s "active")]])]),
       ("tasks", .dict [("total", .i 1), ("completed", .i 1),
         ("pending", .i 0),
         ("data", .list [.dict [("id", .s "t1"), ("status", .s "Done")]])]),
       ("activity", .dict [("productive_hours_today", .i 6),
         ("idle_hours_today", .i 1), ("productivity_score", .i 80),
         ("is_online", .b true)]),
       ("performance", .dict [("overall_score", .i 0),
         ("task_completion_rate", .i 0), ("goal_achievement_rate", .i 0),
         ("trend", .s "stable")]),
       ("goals", .dict [("total", .i 0), ("in_progress", .i 0),
         ("achieved", .i 0), ("data", .list [])]),
       ("labs", .dict [("total", .i 1),
         ("data", .list [.dict [("id", .i 1), ("name", .s "Lab A")]])])] ∧
    jLookup
      [("overall_score", JVal.i 0), ("task_completion_rate", JVal.i 0),
       ("goal_achievement_rate", JVal.i 0), ("trend", JVal.s "stable")]
      "error" = none ∧
    get_unified_dashboard "u1"
      (.val (.list [.dict [("id", .s "p1"), ("status", .s "active")]]))
      (.val (.list [.dict [("id", .s "t1"), ("status", .s "Done")]]))
      (.val (.dict [("productive_hours", .i 6), ("idle_hours", .i 1),
        ("productivity_score", .i 80), ("is_online", .b true)]))
      (.val (base_get "epr" "/api/v1/analytics/user/u1/performance"
        (.exc "All connection attempts failed")))
      (.val (.list []))
      (.val (.list [.dict [("id", .i 1), ("name", .s "Lab A")]])) =
    get_unified_dashboard "u1"
      (.val (.list [.dict [("id", .s "p1"), ("status", .s "active")]]))
      (.val (.list [.dict [("id", .s "t1"), ("status", .s "Done")]]))
      (.val (.dict [("productive_hours", .i 6), ("idle_hours", .i 1),
        ("productivity_score", .i 80), ("is_online", .b true)]))
      (.val (.dict []))
      (.val (.list []))
      (.val (.list [.dict [("id", .i 1), ("name", .s "Lab A")]])) :=
  ⟨rfl, rfl, rfl⟩

/-- C3 as amended: when one backend's sub-query fails (ServiceProxy
failure dict or captured exception) the dashboard call still succeeds
and the other sections populate exactly as if that backend had returned
an empty healthy response — but the failed section carries no error
marker: it is silently filled with the default values. -/
theorem dashboard_failed_section_defaults (u : String)
    (p t a g l pf : Gathered) (hpf : aggregatorFailure pf) :
    get_unified_dashboard u p t a pf g l =
      get_unified_dashboard u p t a (.val (.dict [])) g l ∧
    ∃ sections, get_unified_dashboard u p t a pf g l = .dict sections ∧
      jLookup sections "performance" =
        some (.dict [("overall_score", .i 0), ("task_completion_rate", .i 0),
          ("goal_achievement_rate", .i 0), ("trend", .s "stable")]) := by
  rcases hpf with ⟨m, svc, ep, rfl⟩ | ⟨m, rfl⟩ <;>
    exact ⟨rfl, _, rfl, rfl⟩

/-- C3 amended witness: concrete instance with the EPR failure dict. -/
theorem dashboard_failed_section_defaults_witness :
    get_unified_dashboard "u1" (.val (.list [])) (.val (.list []))
      (.val (.dict [])) (.val (.dict [("error", .s "timed out"),
        ("service", .s "epr"), ("endpoint", .s "/perf")]))
      (.val (.list [])) (.val (.list [])) =
      get_unified_dashboard "u1" (.val (.list [])) (.val (.list []))
        (.val (.dict [])) (.val (.dict [])) (.val (.list []))
        (.val (.list [])) ∧
    ∃ sections, get_unified_dashboard "u1" (.val (.list []))
        (.val (.list [])) (.val (.dict []))
        (.val (.dict [("error", .s "timed out"), ("service", .s "epr"),
          ("endpoint", .s "/perf")]))
        (.val (.list [])) (.val (.list [])) = .dict sections ∧
      jLookup sections "performance" =
        some (.dict [("overall_score", .i 0), ("task_completion_rate", .i 0),
          ("goal_achievement_rate", .i 0), ("trend", .s "stable")]) :=
  dashboard_failed_section_defaults "u1" (.val (.list [])) (.val (.list []))
    (.val (.dict [])) (.val (.list [])) (.val (.list []))
    (.val (.dict [("error", .s "timed out"), ("service", .s "epr"),
      ("endpoint", .s "/perf")]))
    (Or.inl ⟨"timed out", "epr", "/perf", rfl⟩)

/-- C10: when the backends return lists, each section's `data` is the
5-element (3 for goals) prefix truncation of the full list while `total`
is the full list's length — so `total` can exceed `len(data)`. -/
theorem dashboard_truncation (u : String) (ps ts gs ls : List JVal)
    (a pf : Gathered) :
    ∃ sections, get_unified_dashboard u (.val (.list ps)) (.val (.list ts))
        a pf (.val (.list gs)) (.val (.list ls)) = .dict sections ∧
      (∃ f, jLookup sections "projects" = some (.dict f) ∧
        jLookup f "total" = some (.i ps.length) ∧
        jLookup f "data" = some (.list (ps.take 5)) ∧
        ps.take 5 <+: ps ∧ (ps.take 5).length ≤ 5) ∧
      (∃ f, jLookup sections "tasks" = some (.dict f) ∧
        jLookup f "total" = some (.i ts.length) ∧
        jLookup f "data" = some (.list (ts.take 5)) ∧
        ts.take 5 <+: ts ∧ (ts.take 5).length ≤ 5) ∧
      (∃ f, jLookup sections "goals" = some (.dict f) ∧
        jLookup f "total" = some (.i gs.length) ∧
        jLookup f "data" = some (.list (gs.take 3)) ∧
        gs.take 3 <+: gs ∧ (gs.take 3).length ≤ 3) ∧
      (∃ f, jLookup sections "labs" = some (.dict f) ∧
        jLookup f "total" = some (.i ls.length) ∧
        jLookup f "data" = some (.list (ls.take 5)) ∧
        ls.take 5 <+: ls ∧ (ls.take 5).length ≤ 5) := by
  refine ⟨_, rfl, ⟨_, rfl, rfl, rfl, List.take_prefix 5 ps, ?_⟩,
    ⟨_, rfl, rfl, rfl, List.take_prefix 5 ts, ?_⟩,
    ⟨_, rfl, rfl, rfl, List.take_prefix 3 gs, ?_⟩,
    ⟨_, rfl, rfl, rfl, List.take_prefix 5 ls, ?_⟩⟩ <;>
  · rw [List.length_take]
    exact min_le_left _ _

/-- The retry loop `for attempt in range(1, retries + 1)` around one
health target from `main.py`: `health attempt` is what `check_service`
observes on that attempt. Returns whether the target became ready and
how many probes were made. -/
def probeGo (health : Nat → Bool) (attempt : Nat) : Nat → Bool × Nat
  | 0 => (false, 0)
  | rem + 1 =>
      if health attempt then (true, 1)
      else
        let r := probeGo health (attempt + 1) rem
        (r.1, r.2 + 1)

/-- The per-service part of `wait_for_services_and_db`: probe each
service URL in order with up to `retries` attempts; as soon as one
service exhausts its budget, raise (so later services are not probed).
Returns the raised-or-ok outcome together with the number of probes each
service received. -/
def waitServices (retries : Nat) :
    List (String × (Nat → Bool)) → Except String Unit × List (String × Nat)
  | [] => (.ok (), [])
  | (name, h) :: rest =>
      let pr := probeGo h 1 retries
      if pr.1 then
        let wr := waitServices retries rest
        (wr.1, (name, pr.2) :: wr.2)
      else
        (.error ("Service " ++ name ++ " not available after retries"),
         (name, pr.2) :: rest.map (fun p => (p.1, 0)))

/-- `wait_for_services_and_db` from `main.py`: first the database retry
loop (raising when the budget is exhausted, in which case no service is
probed), then the per-service loops. -/
def wait_for_services_and_db (dbHealth : Nat → Bool)
    (svcs : List (String × (Nat → Bool))) (retries : Nat) :
    Except String Unit × List (String × Nat) :=
  let dbr := probeGo dbHealth 1 retries
  if dbr.1 then waitServices retries svcs
  else (.error "Database connection failed after retries",
        svcs.map (fun p => (p.1, 0)))

/-- The inner `try/except` of `lifespan` in `main.py` around
`wait_for_services_and_db`: an exception is caught, logged, and startup
continues ("continuing anyway"), so the gateway reaches `yield` and
serves traffic in both cases. -/
def lifespan_proceeds : Except String Unit → Bool
  | .ok _ => true
  | .error _ => true

theorem probeGo_always_false (h : Nat → Bool) (hf : ∀ k, h k = false) :
    ∀ (n attempt : Nat), probeGo h attempt n = (false, n) := by
  intro n
  induction n with
  | zero => intro attempt; rfl
  | succ m ih =>
      intro attempt
      simp [probeGo, hf attempt, ih (attempt + 1)]

theorem probeGo_first_true (h : Nat → Bool) (ht : h 1 = true)
    (n : Nat) (hn : 1 ≤ n) : probeGo h 1 n = (true, 1) := by
  match n, hn with
  | m + 1, _ => simp [probeGo, ht]

theorem waitServices_healthy_pre (retries : Nat) (hr : 1 ≤ retries)
    (rest : List (String × (Nat → Bool))) :
    ∀ pre, (∀ p ∈ pre, p.2 1 = true) →
      waitServices retries (pre ++ rest) =
        ((waitServices retries rest).1,
         pre.map (fun p => (p.1, 1)) ++ (waitServices retries rest).2) := by
  intro pre
  induction pre with
  | nil => intro _; simp
  | cons hd tl ih =>
      intro hpre
      obtain ⟨name, h⟩ := hd
      have hh : h 1 = true := hpre (name, h) (List.mem_cons_self _ _)
      have htl := ih (fun p hp => hpre p (List.mem_cons_of_mem _ hp))
      simp [waitServices, probeGo_first_true h hh retries hr, htl]

/-- C7: with the database reachable and exactly one service whose health
endpoint fails on every probe (the services before it in the list being
healthy), the readiness check probes the failing service exactly
`retries` times and terminates with an error — each healthy service
before it is probed once and the services after it are not probed — and
the gateway's startup catches that error and proceeds to accept traffic
(fail-open) instead of refusing to start. -/
theorem wait_ready_fail_open (dbHealth : Nat → Bool) (hdb : dbHealth 1 = true)
    (pre post : List (String × (Nat → Bool))) (name : String)
    (hfail : Nat → Bool) (hf : ∀ k, hfail k = false)
    (hpre : ∀ p ∈ pre, p.2 1 = true) (retries : Nat) (hr : 1 ≤ retries) :
    wait_for_services_and_db dbHealth (pre ++ (name, hfail) :: post) retries =
      (.error ("Service " ++ name ++ " not available after retries"),
       pre.map (fun p => (p.1, 1)) ++
         (name, retries) :: post.map (fun p => (p.1, 0))) ∧
    lifespan_proceeds
      (wait_for_services_and_db dbHealth (pre ++ (name, hfail) :: post)
        retries).1 = true := by
  have hrest : waitServices retries ((name, hfail) :: post) =
      (.error ("Service " ++ name ++ " not available after retries"),
       (name, retries) :: post.map (fun p => (p.1, 0))) := by
    simp [waitServices, probeGo_always_false hfail hf retries 1]
  have hmain : wait_for_services_and_db dbHealth
      (pre ++ (name, hfail) :: post) retries =
      (.error ("Service " ++ name ++ " not available after retries"),
       pre.map (fun p => (p.1, 1)) ++
         (name, retries) :: post.map (fun p => (p.1, 0))) := by
    unfold wait_for_services_and_db
    rw [probeGo_first_true dbHealth hdb retries hr]
    simp only [if_true]
    rw [waitServices_healthy_pre retries hr _ pre hpre, hrest]
  refine ⟨hmain, ?_⟩
  rw [hmain]
  rfl


/-- C7 witness: atlas healthy, workpulse failing every probe, retry
budget 3 — workpulse is probed exactly 3 times, the check errors, and
the gateway proceeds. -/
theorem wait_ready_fail_open_witness :
    wait_for_services_and_db (fun _ => true)
      ([("atlas", fun _ => true)] ++ ("workpulse", fun _ => false) :: []) 3 =
      (.error "Service workpulse not available after retries",
       [("atlas", 1), ("workpulse", 3)]) ∧
    lifespan_proceeds
      (wait_for_services_and_db (fun _ => true)
        ([("atlas", fun _ => true)] ++ ("workpulse", fun _ => false) :: [])
        3).1 = true := by
  have h := wait_ready_fail_open (fun _ => true) rfl
    [("atlas", fun _ => true)] [] "workpulse" (fun _ => false)
    (fun _ => rfl) (by intro p hp; simp at hp; rw [hp]) 3 (by norm_num)
  simpa using h

/-- UTF-8 encoding of one character by scalar-value arithmetic. -/
def utf8EncodeChar (c : Char) : List Nat :=
  let n := c.toNat
  if n < 128 then [n]
  else if n < 2048 then
    [192 + n / 64, 128 + n % 64]
  else if n < 65536 then
    [224 + n / 4096, 128 + (n / 64) % 64, 128 + n % 64]
  else
    [240 + n / 262144, 128 + (n / 4096) % 64, 128 + (n / 64) % 64,
     128 + n % 64]

/-- `s.encode('utf-8')` as a byte list. -/
def utf8Encode (s : String) : List Nat :=
  (s.data.map utf8EncodeChar).flatten

/-- The bcrypt library as the pair of functions the handler calls.
`hashpw` is `bcrypt.hashpw(...).decode('utf-8')` folded into one map
(bcrypt hash strings are ASCII, so the decode is lossless); `checkpw`
takes the password bytes and the hash bytes. -/
structure BcryptModel where
  hashpw : List Nat → String → String
  checkpw : List Nat → List Nat → Bool

/-- `verify_password` from `auth/jwt_handler.py`: truncates the
plaintext to its first 72 UTF-8 bytes and calls `bcrypt.checkpw`
against the re-encoded stored hash. -/
def verify_password (B : BcryptModel) (plain_password hashed_password : String) :
    Bool :=
  B.checkpw ((utf8Encode plain_password).take 72) (utf8Encode hashed_password)

/-- `get_password_hash` from `auth/jwt_handler.py`: truncates the
password to its first 72 UTF-8 bytes and hashes with a fresh salt. -/
def get_password_hash (B : BcryptModel) (password salt : String) : String :=
  B.hashpw ((utf8Encode password).take 72) salt

/-- bcrypt's contract: checking bytes against their own hash succeeds. -/
def BcryptCorrect (B : BcryptModel) : Prop :=
  ∀ b s, B.checkpw b (utf8Encode (B.hashpw b s)) = true

/-- C9: password verification depends only on the first 72 UTF-8 bytes
of the plaintext — any two passwords agreeing on those bytes verify
identically against every stored hash — and (given bcrypt's contract) a
password hashed by `get_password_hash` is still accepted after any
change beyond byte 72. -/
theorem verify_password_prefix72 (B : BcryptModel)
    (p1 p2 hash salt : String)
    (hagree : (utf8Encode p1).take 72 = (utf8Encode p2).take 72) :
    verify_password B p1 hash = verify_password B p2 hash ∧
    (BcryptCorrect B →
      verify_password B p2 (get_password_hash B p1 salt) = true) := by
  constructor
  · unfold verify_password
    rw [hagree]
  · intro hc
    unfold verify_password get_password_hash
    rw [hagree]
    exact hc _ _

/-- C9 witness: two 73-character passwords differing only in their last
character verify identically and cross-accept. -/
theorem verify_password_prefix72_witness :
    verify_password ⟨fun _ _ => "h", fun _ _ => true⟩
        "aaaaaaaaaaaaaaaaaaaaaaaaaaaaaaaaaaaaaaaaaaaaaaaaaaaaaaaaaaaaaaaaaaaaaaaaX"
        "stored" =
      verify_password ⟨fun _ _ => "h", fun _ _ => true⟩
        "aaaaaaaaaaaaaaaaaaaaaaaaaaaaaaaaaaaaaaaaaaaaaaaaaaaaaaaaaaaaaaaaaaaaaaaaY"
        "stored" ∧
    (BcryptCorrect ⟨fun _ _ => "h", fun _ _ => true⟩ →
      verify_password ⟨fun _ _ => "h", fun _ _ => true⟩
          "aaaaaaaaaaaaaaaaaaaaaaaaaaaaaaaaaaaaaaaaaaaaaaaaaaaaaaaaaaaaaaaaaaaaaaaaY"
          (get_password_hash ⟨fun _ _ => "h", fun _ _ => true⟩
            "aaaaaaaaaaaaaaaaaaaaaaaaaaaaaaaaaaaaaaaaaaaaaaaaaaaaaaaaaaaaaaaaaaaaaaaaX"
            "salt") = true) :=
  verify_password_prefix72 ⟨fun _ _ => "h", fun _ _ => true⟩
    "aaaaaaaaaaaaaaaaaaaaaaaaaaaaaaaaaaaaaaaaaaaaaaaaaaaaaaaaaaaaaaaaaaaaaaaaX"
    "aaaaaaaaaaaaaaaaaaaaaaaaaaaaaaaaaaaaaaaaaaaaaaaaaaaaaaaaaaaaaaaaaaaaaaaaY"
    "stored" "salt" rfl

end SPM
